import Mathlib

/-!
Shallow embedding of the VIChat realtime core: the server connection
registry and gateway (`apps/backend/src/modules/auth/service.ts`), the
conversation store (`modules/conversations/store.ts`) and its HTTP router,
the message store with the at-rest cipher (`modules/messages/store.ts`,
`modules/messages/crypto.ts`), and the web SDK's connection transport and
outbox manager (`packages/sdk-web/src/realtime.ts`, `storage.ts`,
`index.ts`).  Timestamps are modelled as natural numbers (epoch
milliseconds), byte buffers as lists of naturals, and the asynchronous
TypeScript functions as pure state-passing functions; fallible code
returns `Except`/`Option`.
-/

namespace VIChat

/-- Verified JWT claims attached to a realtime connection
(`VerifiedToken`, modules/auth/service.ts). -/
structure VerifiedToken where
  tenantId : String
  userId : String
  scopes : List String
  clientId : String
  roles : List String
deriving DecidableEq, Repr

/-- A live realtime connection tracked by the gateway's in-memory registry
(`ConnectionContext` plus the `connections` map, modules/auth/service.ts).
`socketOpen` models `socket.readyState === socket.OPEN`. -/
structure ConnectionContext where
  id : String
  socketOpen : Bool
  token : VerifiedToken
deriving DecidableEq, Repr

/-- One iteration of the `broadcast` loop (modules/auth/service.ts): the
connection is skipped when its tenant differs, when an allowed-user set is
supplied and does not contain its user, or when its socket is not open. -/
def broadcastDelivers (tenantId : String) (allowedUsers : Option (List String))
    (ctx : ConnectionContext) : Bool :=
  if ctx.token.tenantId != tenantId then false
  else if (match allowedUsers with
      | some allowed => !(allowed.contains ctx.token.userId)
      | none => false) then false
  else ctx.socketOpen

/-- `broadcast(tenantId, message, allowedUsers?)`
(modules/auth/service.ts): the sublist of registry connections the
envelope is written to, in registry iteration order. -/
def broadcast (connections : List ConnectionContext) (tenantId : String)
    (allowedUsers : Option (List String)) : List ConnectionContext :=
  connections.filter (broadcastDelivers tenantId allowedUsers)

theorem broadcastDelivers_eq_true (tenantId : String)
    (allowedUsers : Option (List String)) (ctx : ConnectionContext) :
    broadcastDelivers tenantId allowedUsers ctx = true ↔
      ctx.socketOpen = true ∧ ctx.token.tenantId = tenantId ∧
        ∀ allowed, allowedUsers = some allowed → ctx.token.userId ∈ allowed := by
  cases allowedUsers with
  | none =>
    by_cases h : ctx.token.tenantId = tenantId <;>
      simp [broadcastDelivers, h]
  | some allowed =>
    by_cases h : ctx.token.tenantId = tenantId <;>
      by_cases hm : ctx.token.userId ∈ allowed <;>
        simp [broadcastDelivers, h, hm, List.elem_iff]

/-- Claim C1: `broadcast(tenantId, envelope, allowedUserIds?)` delivers the
envelope exactly to the live (open) registry connections whose `tenantId`
matches and, when the allowed-user set is supplied, whose `userId` is in
it; in particular a connection of a different tenant never receives a
broadcast scoped to `tenantId`. -/
theorem broadcast_delivers_exactly_matching (connections : List ConnectionContext)
    (tenantId : String) (allowedUsers : Option (List String)) :
    (∀ ctx, ctx ∈ broadcast connections tenantId allowedUsers ↔
      ctx ∈ connections ∧ ctx.socketOpen = true ∧ ctx.token.tenantId = tenantId ∧
        ∀ allowed, allowedUsers = some allowed → ctx.token.userId ∈ allowed) ∧
    (∀ ctx, ctx ∈ connections → ctx.token.tenantId ≠ tenantId →
      ctx ∉ broadcast connections tenantId allowedUsers) := by
  constructor
  · intro ctx
    rw [broadcast, List.mem_filter, broadcastDelivers_eq_true]
  · intro ctx _ hne hmem
    rw [broadcast, List.mem_filter, broadcastDelivers_eq_true] at hmem
    exact hne hmem.2.2.1

def demoTokenT1 : VerifiedToken :=
  { tenantId := "T1", userId := "alice", scopes := [], clientId := "app", roles := [] }

def demoTokenT2 : VerifiedToken :=
  { tenantId := "T2", userId := "mallory", scopes := [], clientId := "app", roles := [] }

def demoConnT1 : ConnectionContext :=
  { id := "conn-1", socketOpen := true, token := demoTokenT1 }

def demoConnT2 : ConnectionContext :=
  { id := "conn-2", socketOpen := true, token := demoTokenT2 }

/-- Witness for claim C1 at a concrete registry holding one connection per
tenant: the T1 broadcast reaches the T1 connection and never the T2 one. -/
theorem broadcast_delivers_exactly_matching_witness :
    demoConnT1 ∈ broadcast [demoConnT1, demoConnT2] "T1" none ∧
    demoConnT2 ∉ broadcast [demoConnT1, demoConnT2] "T1" none := by
  have h := broadcast_delivers_exactly_matching [demoConnT1, demoConnT2] "T1" none
  refine ⟨(h.1 demoConnT1).mpr ⟨by decide, by decide, by decide, ?_⟩,
    h.2 demoConnT2 (by decide) (by decide)⟩
  intro allowed hallowed
  exact Option.noConfusion hallowed

/-! ## Connection transport (packages/sdk-web/src/realtime.ts) -/

/-- Connection state machine of the client transport
(`ConnectionState`, packages/sdk-web/src/realtime.ts). -/
inductive ConnectionState where
  | idle
  | connecting
  | connected
  | disconnected
deriving DecidableEq, Repr

/-- Mutable fields of a `RealtimeClient` instance
(packages/sdk-web/src/realtime.ts): the connection state, the reconnect
attempt counter, the `autoReconnect` option, the backoff table, and
whether a socket object currently exists (`this.ws`). -/
structure RealtimeState where
  state : ConnectionState
  retryAttempt : Nat
  autoReconnect : Bool
  retryDelays : List Nat
  hasSocket : Bool
deriving DecidableEq, Repr

/-- Default backoff table of the `RealtimeClient` constructor:
`[1000, 2500, 5000, 10000]` milliseconds. -/
def defaultRetryDelays : List Nat := [1000, 2500, 5000, 10000]

/-- A fresh `RealtimeClient` as built by the constructor with the options
`ChatKit.init` passes (`autoReconnect: true`, no `retryDelays`). -/
def RealtimeClient.initial : RealtimeState :=
  { state := .idle
    retryAttempt := 0
    autoReconnect := true
    retryDelays := defaultRetryDelays
    hasSocket := false }

/-- `connect()` (realtime.ts): a no-op when already `connected` or
`connecting`; otherwise creates the socket and transitions to
`connecting`.  The `open`/`close` callbacks fire later and are modelled by
`RealtimeClient.handleOpen` / `RealtimeClient.handleClose`. -/
def RealtimeClient.connect (s : RealtimeState) : RealtimeState :=
  if s.state = .connected ∨ s.state = .connecting then s
  else { s with state := .connecting, hasSocket := true }

/-- `scheduleReconnect()` (realtime.ts): reads the backoff delay at index
`min(retryAttempt, retryDelays.length - 1)`, then increments the attempt
counter; returns the new state and the scheduled delay. -/
def RealtimeClient.scheduleReconnect (s : RealtimeState) : RealtimeState × Nat :=
  let delay := s.retryDelays.getD (min s.retryAttempt (s.retryDelays.length - 1)) 0
  ({ s with retryAttempt := s.retryAttempt + 1 }, delay)

/-- The `ws.onopen` callback (realtime.ts): reset the attempt counter,
transition to `connected`. -/
def RealtimeClient.handleOpen (s : RealtimeState) : RealtimeState :=
  { s with retryAttempt := 0, state := .connected }

/-- The `ws.onclose` callback (realtime.ts): transition to
`disconnected`; when `autoReconnect` is enabled, schedule a reconnect and
return the scheduled delay. -/
def RealtimeClient.handleClose (s : RealtimeState) : RealtimeState × Option Nat :=
  let s1 := { s with state := ConnectionState.disconnected }
  if s.autoReconnect then
    let (s2, delay) := RealtimeClient.scheduleReconnect s1
    (s2, some delay)
  else (s1, none)

/-- `send(message)` (realtime.ts): throws `Realtime connection not
established` unless a socket exists and the state is `connected`;
otherwise the frame is handed to the socket. -/
def RealtimeClient.send (s : RealtimeState) : Except String Unit :=
  if ¬s.hasSocket ∨ s.state ≠ .connected then
    .error "Realtime connection not established"
  else .ok ()

/-- The transport state after `n` consecutive close events (connection
failures) starting from `s`. -/
def closesFrom (s : RealtimeState) : Nat → RealtimeState
  | 0 => s
  | n + 1 => (RealtimeClient.handleClose (closesFrom s n)).1

theorem closesFrom_autoReconnect (s : RealtimeState) (n : Nat) :
    (closesFrom s n).autoReconnect = s.autoReconnect := by
  induction n with
  | zero => rfl
  | succ n ih =>
    simp only [closesFrom, RealtimeClient.handleClose]
    split <;> simpa [RealtimeClient.scheduleReconnect]

theorem closesFrom_retryDelays (s : RealtimeState) (n : Nat) :
    (closesFrom s n).retryDelays = s.retryDelays := by
  induction n with
  | zero => rfl
  | succ n ih =>
    simp only [closesFrom, RealtimeClient.handleClose]
    split <;> simpa [RealtimeClient.scheduleReconnect]

theorem closesFrom_retryAttempt (s : RealtimeState) (n : Nat)
    (h : s.autoReconnect = true) :
    (closesFrom s n).retryAttempt = s.retryAttempt + n := by
  induction n with
  | zero => rfl
  | succ n ih =>
    have ha := closesFrom_autoReconnect s n
    simp only [closesFrom, RealtimeClient.handleClose, h] at ha ⊢
    rw [ha]
    simp [RealtimeClient.scheduleReconnect, ih, Nat.add_assoc]

/-- Claim C8: starting from a freshly opened transport, after `N`
consecutive connection failures the attempt counter equals `N` and the
next close schedules the reconnect with delay
`retryDelays[min N (length - 1)]` (the table clamped at its last entry);
the counter increments on every close handled with auto-reconnect
enabled, and a successful open resets it to `0`. -/
theorem reconnect_backoff_clamped (N : Nat) :
    (closesFrom (RealtimeClient.handleOpen RealtimeClient.initial) N).retryAttempt = N ∧
    (RealtimeClient.handleClose
        (closesFrom (RealtimeClient.handleOpen RealtimeClient.initial) N)).2 =
      some (defaultRetryDelays.getD (min N 3) 0) ∧
    (∀ s : RealtimeState, s.autoReconnect = true →
      (RealtimeClient.handleClose s).1.retryAttempt = s.retryAttempt + 1) ∧
    (∀ s : RealtimeState, (RealtimeClient.handleOpen s).retryAttempt = 0) := by
  have hinit : (RealtimeClient.handleOpen RealtimeClient.initial).autoReconnect = true := rfl
  have hcount := closesFrom_retryAttempt (RealtimeClient.handleOpen RealtimeClient.initial) N hinit
  have hauto := closesFrom_autoReconnect (RealtimeClient.handleOpen RealtimeClient.initial) N
  have hdelays := closesFrom_retryDelays (RealtimeClient.handleOpen RealtimeClient.initial) N
  have h0 : (RealtimeClient.handleOpen RealtimeClient.initial).retryAttempt = 0 := rfl
  rw [hinit] at hauto
  rw [h0, Nat.zero_add] at hcount
  refine ⟨hcount, ?_, ?_, fun s => rfl⟩
  · simp only [RealtimeClient.handleClose, hauto, if_true,
      RealtimeClient.scheduleReconnect, hdelays, hcount]
    rfl
  · intro s hs
    simp [RealtimeClient.handleClose, hs, RealtimeClient.scheduleReconnect]

/-- An example transport state with two recorded consecutive failures and
auto-reconnect enabled. -/
def demoRealtimeState : RealtimeState :=
  { state := ConnectionState.disconnected
    retryAttempt := 2
    autoReconnect := true
    retryDelays := defaultRetryDelays
    hasSocket := true }

/-- Witness for claim C8 at `N = 5`: the counter reaches `5` and the sixth
failure schedules the clamped last table entry (10 s). -/
theorem reconnect_backoff_clamped_witness :
    (closesFrom (RealtimeClient.handleOpen RealtimeClient.initial) 5).retryAttempt = 5 ∧
    (RealtimeClient.handleClose
        (closesFrom (RealtimeClient.handleOpen RealtimeClient.initial) 5)).2 = some 10000 ∧
    (RealtimeClient.handleClose demoRealtimeState).1.retryAttempt = 3 := by
  obtain ⟨h1, h2, h3, _⟩ := reconnect_backoff_clamped 5
  exact ⟨h1, by simpa [defaultRetryDelays] using h2,
    h3 demoRealtimeState (by decide)⟩

/-! ## Shared message shapes (packages/shared, mirrored by the zod schemas
in modules/auth/service.ts) -/

/-- `type ∈ {text, media, system, sticker}` of a message. -/
inductive MessageType where
  | text
  | media
  | system
  | sticker
deriving DecidableEq, Repr

/-- `scheme ∈ {signal, mls}` of a client-side cipher envelope. -/
inductive CipherScheme where
  | signal
  | mls
deriving DecidableEq, Repr

/-- `kind ∈ {image, video, audio, file}` of a media attachment. -/
inductive MediaKind where
  | image
  | video
  | audio
  | file
deriving DecidableEq, Repr

/-- A media attachment reference (`mediaAttachmentSchema`). -/
structure MediaAttachment where
  id : String
  kind : MediaKind
  size : Nat
  mimeType : String
  key : String
  digest : String
deriving DecidableEq, Repr

/-- The end-to-end cipher envelope carried in a message body
(`cipherEnvelopeSchema`); opaque to the server. -/
structure CipherEnvelope where
  ciphertext : String
  scheme : CipherScheme
  keyId : String
  media : Option (List MediaAttachment)
deriving DecidableEq, Repr

/-- A sticker reference (`stickerSchema`). -/
structure StickerPayload where
  id : String
  url : String
  name : Option String
  pack : Option String
deriving DecidableEq, Repr

/-- The wire-level message payload (shared `MessagePayload`): timestamps
are ISO strings on the wire, modelled as epoch numbers; `metadata` is an
arbitrary JSON record, modelled as key/value pairs with opaque serialized
values. -/
structure MessagePayload where
  id : String
  conversationId : String
  senderId : String
  senderDeviceId : String
  sentAt : Nat
  deliveredAt : Option Nat
  readAt : Option Nat
  type : MessageType
  body : CipherEnvelope
  metadata : Option (List (String × String))
  sticker : Option StickerPayload
deriving DecidableEq, Repr

/-! ## Outbox storage (packages/sdk-web/src/storage.ts, `MemoryStorage`) -/

/-- `SendRequest` (packages/sdk-web/src/index.ts). -/
structure SendRequest where
  message : MessagePayload
deriving DecidableEq, Repr

/-- `QueuedMessage` (packages/sdk-web/src/storage.ts). -/
structure QueuedMessage where
  id : String
  payload : SendRequest
  createdAt : Nat
deriving DecidableEq, Repr

/-- `put(message)` (storage.ts): durably appends. -/
def OutboxStorage.put (items : List QueuedMessage) (message : QueuedMessage) :
    List QueuedMessage :=
  items ++ [message]

/-- `take(limit)` (storage.ts): returns up to `limit` oldest entries
without removing them (`items.slice(0, limit)`). -/
def OutboxStorage.take (items : List QueuedMessage) (limit : Nat) : List QueuedMessage :=
  items.take limit

/-- One iteration of `delete(ids)` (storage.ts): `findIndex` plus
`splice(idx, 1)` removes the first entry with the given id, if any. -/
def OutboxStorage.deleteFirst (items : List QueuedMessage) (id : String) :
    List QueuedMessage :=
  match items with
  | [] => []
  | m :: rest =>
    if m.id == id then rest else m :: OutboxStorage.deleteFirst rest id

/-- `delete(ids)` (storage.ts): removes entries by id. -/
def OutboxStorage.deleteMany (items : List QueuedMessage) (ids : List String) :
    List QueuedMessage :=
  ids.foldl OutboxStorage.deleteFirst items

/-! ## Client facade (packages/sdk-web/src/index.ts) -/

/-- `SyncCursor`: client-side acknowledgement cursor. -/
structure SyncCursor where
  lastAckMessageId : Option String
  updatedAt : Nat
deriving DecidableEq, Repr

/-- The mutable state of a `ChatKit` instance that the modelled claims
touch: the outbox contents, the transport state, and the sync cursor. -/
structure ClientState where
  outbox : List QueuedMessage
  realtime : RealtimeState
  cursor : SyncCursor
deriving DecidableEq, Repr

/-- Observable actions of the client: frames handed to the transport and
events emitted to the caller. -/
inductive ClientOutput where
  | sentFrame (envelopeType : String) (message : MessagePayload)
  | errorEmitted (message : String)
  | stateEmitted (st : ConnectionState)
  | messageEmitted (message : MessagePayload)
  | presenceEmitted
  | typingEmitted (conversationId userId : String) (isTyping : Bool)
  | callEmitted (conversationId : String)
  | unknownEnvelopeWarned (envelopeType : String)
deriving DecidableEq, Repr

/-- `ChatKit.sendEnvelope` (index.ts): hand the envelope to
`realtime.send`; a throw is caught and re-emitted as an `error` event (it
does not propagate to the caller). -/
def ChatKit.sendEnvelope (s : ClientState) (envelopeType : String)
    (message : MessagePayload) : List ClientOutput :=
  match RealtimeClient.send s.realtime with
  | .ok _ => [.sentFrame envelopeType message]
  | .error err => [.errorEmitted err]

/-- `ChatKit.trySendQueued` (index.ts): take up to 10 outbox entries,
hand each to the transport as a `message`-typed envelope via
`sendEnvelope`, then delete every taken entry id from the outbox. -/
def ChatKit.trySendQueued (s : ClientState) : ClientState × List ClientOutput :=
  let batch := OutboxStorage.take s.outbox 10
  if batch.isEmpty then (s, [])
  else
    let outputs := batch.flatMap fun item =>
      ChatKit.sendEnvelope s "message" item.payload.message
    let outbox := OutboxStorage.deleteMany s.outbox (batch.map QueuedMessage.id)
    ({ s with outbox := outbox }, outputs)

/-- `ChatKit.flushOutbox` (index.ts): delegates to `trySendQueued`. -/
def ChatKit.flushOutbox (s : ClientState) : ClientState × List ClientOutput :=
  ChatKit.trySendQueued s

/-- An inbound envelope as interpreted by `ChatKit.handleMessage`
(index.ts): a `message` payload may arrive bare or wrapped in
`{ message }`; unknown types are only logged. -/
inductive InboundEnvelope where
  | message (wrapped : Bool) (m : MessagePayload)
  | presence
  | typing (conversationId userId : String) (isTyping : Bool)
  | call (conversationId : String)
  | ack (lastAckMessageId : Option String)
  | unknown (envelopeType : String)
deriving DecidableEq, Repr

/-- `ChatKit.handleMessage` (index.ts): re-emit inbound events; an `ack`
updates the sync cursor; unknown envelope types are logged and ignored. -/
def ChatKit.handleMessage (s : ClientState) (envelope : InboundEnvelope)
    (now : Nat) : ClientState × List ClientOutput :=
  match envelope with
  | .message _ m => (s, [.messageEmitted m])
  | .presence => (s, [.presenceEmitted])
  | .typing conversationId userId isTyping =>
    (s, [.typingEmitted conversationId userId isTyping])
  | .call conversationId => (s, [.callEmitted conversationId])
  | .ack lastAckMessageId =>
    ({ s with cursor := { lastAckMessageId := lastAckMessageId, updatedAt := now } }, [])
  | .unknown envelopeType => (s, [.unknownEnvelopeWarned envelopeType])

/-- Transport events a `RealtimeClient` can emit to its listeners. -/
inductive RealtimeEvent where
  | message (envelope : InboundEnvelope)
  | error (message : String)
  | state (st : ConnectionState)
  | openEvent
  | closeEvent
deriving DecidableEq, Repr

/-- Reaction of a `ChatKit` instance to a transport event, as wired in
its constructor (index.ts): listeners are registered for `message`,
`error` and `state` only; the constructor registers no listener for the
transport's `open` (or `close`) event, so those events trigger no client
action. -/
def ChatKit.dispatchRealtimeEvent (s : ClientState) (event : RealtimeEvent)
    (now : Nat) : ClientState × List ClientOutput :=
  match event with
  | .message envelope => ChatKit.handleMessage s envelope now
  | .error message => (s, [.errorEmitted message])
  | .state st => (s, [.stateEmitted st])
  | .openEvent => (s, [])
  | .closeEvent => (s, [])

/-- `ChatKit.init` (index.ts): build the outbox and the transport
(`autoReconnect: true`), call `realtime.connect()` (the socket is then
still `connecting`; `open` arrives asynchronously), and run one
`flushOutbox` pass. -/
def ChatKit.init (outbox : List QueuedMessage) (now : Nat) :
    ClientState × List ClientOutput :=
  ChatKit.flushOutbox
    { outbox := outbox
      realtime := RealtimeClient.connect RealtimeClient.initial
      cursor := { lastAckMessageId := none, updatedAt := now } }

theorem trySendQueued_outbox (s : ClientState) :
    (ChatKit.trySendQueued s).1.outbox =
      OutboxStorage.deleteMany s.outbox
        ((OutboxStorage.take s.outbox 10).map QueuedMessage.id) := by
  by_cases h : (OutboxStorage.take s.outbox 10).isEmpty
  · rw [List.isEmpty_iff] at h
    simp [ChatKit.trySendQueued, h, OutboxStorage.deleteMany]
  · simp [ChatKit.trySendQueued, h]

/-- An example message payload as synthesized by `sendText`. -/
def demoMessagePayload : MessagePayload :=
  { id := "m1"
    conversationId := "conv-1"
    senderId := "alice"
    senderDeviceId := "dev-1"
    sentAt := 1
    deliveredAt := none
    readAt := none
    type := MessageType.text
    body := { ciphertext := "hello", scheme := CipherScheme.signal,
              keyId := "conv-1:dev-1", media := none }
    metadata := none
    sticker := none }

/-- An outbox entry holding `demoMessagePayload`. -/
def demoQueuedEntry : QueuedMessage :=
  { id := "m1", payload := { message := demoMessagePayload }, createdAt := 1 }

/-- A client right after `init` while the socket is still `connecting`,
with one message queued (for example one sent while offline). -/
def demoOfflineClient : ClientState :=
  { outbox := [demoQueuedEntry]
    realtime := RealtimeClient.connect RealtimeClient.initial
    cursor := { lastAckMessageId := none, updatedAt := 0 } }

/-- Claim C2 (code bug): in every flush pass the taken batch is deleted
from the outbox unconditionally — `sendEnvelope` swallows the transport
throw — so an entry whose hand-off failed does NOT remain queued.
Concretely, flushing while the transport is still `connecting` raises
`Realtime connection not established` for the only entry, hands nothing
to the transport, and nevertheless leaves the outbox empty. -/
theorem flush_deletes_batch_even_on_failed_handoff :
    (∀ s : ClientState, (ChatKit.trySendQueued s).1.outbox =
      OutboxStorage.deleteMany s.outbox
        ((OutboxStorage.take s.outbox 10).map QueuedMessage.id)) ∧
    ChatKit.trySendQueued demoOfflineClient =
      ({ demoOfflineClient with outbox := [] },
        [ClientOutput.errorEmitted "Realtime connection not established"]) := by
  refine ⟨trySendQueued_outbox, ?_⟩
  rfl

/-- A client holding one queued entry whose transport has just
successfully (re)connected. -/
def demoReconnectedClient : ClientState :=
  { outbox := [demoQueuedEntry]
    realtime := RealtimeClient.handleOpen (RealtimeClient.connect RealtimeClient.initial)
    cursor := { lastAckMessageId := none, updatedAt := 0 } }

/-- Claim C3 (code bug): a flush pass does run at client init, but the
`ChatKit` constructor registers no listener for the transport `open`
event, so no flush is triggered after a successful (re)connect: an open
event leaves the client state untouched and transmits nothing — a message
queued while disconnected is not sent on reconnect without further caller
action. -/
theorem flush_runs_on_init_but_not_on_open :
    (∀ outbox now, ChatKit.init outbox now =
      ChatKit.flushOutbox
        { outbox := outbox
          realtime := RealtimeClient.connect RealtimeClient.initial
          cursor := { lastAckMessageId := none, updatedAt := now } }) ∧
    (∀ (s : ClientState) (now : Nat),
      ChatKit.dispatchRealtimeEvent s RealtimeEvent.openEvent now = (s, [])) ∧
    ChatKit.dispatchRealtimeEvent demoReconnectedClient RealtimeEvent.openEvent 7 =
      (demoReconnectedClient, []) := by
  exact ⟨fun _ _ => rfl, fun _ _ => rfl, rfl⟩

/-! ## At-rest cipher (modules/messages/crypto.ts)

`Buffer`s are modelled as lists of naturals.  `JSON.stringify` followed by
utf-8 encoding is modelled by the injective serializer `serializePayload`
with `parsePayload` as its partial inverse (`JSON.parse` plus the
missing-`body` check).  The aes-256-gcm primitive from node's `crypto`
module is external to the repository and is modelled symbolically but
executably: encryption XORs a key/nonce-derived keystream over the
serialized bytes, and the authentication tag is a collision-free function
of the key, the nonce and the ciphertext, which is exactly the interface
contract the repository code relies on (a tag mismatch makes
`decipher.final()` throw). -/

/-- Byte buffers. -/
abbrev Bytes := List Nat

/-- `SensitiveMessagePayload` (crypto.ts): the `{body, metadata, sticker}`
slice of a message wrapped by the at-rest cipher. -/
structure SensitiveMessagePayload where
  body : CipherEnvelope
  metadata : Option (List (String × String))
  sticker : Option StickerPayload
deriving DecidableEq, Repr

/-- `EncryptedMessagePayload` (crypto.ts): `{ciphertext, iv, authTag}`.
The source base64-encodes each field for storage; base64 is a bijective
transport encoding and is modelled as the identity on bytes. -/
structure EncryptedMessagePayload where
  ciphertext : Bytes
  iv : Bytes
  authTag : Bytes
deriving DecidableEq, Repr

def encodeNat (n : Nat) : Bytes := [n]

def decodeNat : Bytes → Option (Nat × Bytes)
  | [] => none
  | n :: rest => some (n, rest)

def encodeString (s : String) : Bytes :=
  s.length :: s.data.map Char.toNat

def decodeString : Bytes → Option (String × Bytes)
  | [] => none
  | n :: rest =>
    if n ≤ rest.length then
      some (String.mk ((rest.take n).map Char.ofNat), rest.drop n)
    else none

def encodeOption (f : α → Bytes) : Option α → Bytes
  | none => [0]
  | some a => 1 :: f a

def decodeOption (g : Bytes → Option (α × Bytes)) : Bytes → Option (Option α × Bytes)
  | [] => none
  | 0 :: rest => some (none, rest)
  | 1 :: rest =>
    match g rest with
    | none => none
    | some (a, bs) => some (some a, bs)
  | _ :: _ => none

def encodePair (f : α → Bytes) (g : β → Bytes) (p : α × β) : Bytes :=
  f p.1 ++ g p.2

def decodePair (f g : Bytes → Option (α × Bytes)) (bs : Bytes) :
    Option ((α × α) × Bytes) :=
  (f bs).bind fun (a, bs) =>
  (g bs).bind fun (b, bs) =>
  some ((a, b), bs)

def encodeList (f : α → Bytes) (l : List α) : Bytes :=
  l.length :: l.flatMap f

def decodeCount (g : Bytes → Option (α × Bytes)) : Nat → Bytes → Option (List α × Bytes)
  | 0, bs => some ([], bs)
  | n + 1, bs =>
    (g bs).bind fun (a, bs) =>
    (decodeCount g n bs).bind fun (as, bs) =>
    some (a :: as, bs)

def decodeList (g : Bytes → Option (α × Bytes)) : Bytes → Option (List α × Bytes)
  | [] => none
  | n :: rest => decodeCount g n rest

def encodeCipherScheme : CipherScheme → Bytes
  | .signal => [0]
  | .mls => [1]

def decodeCipherScheme : Bytes → Option (CipherScheme × Bytes)
  | 0 :: rest => some (.signal, rest)
  | 1 :: rest => some (.mls, rest)
  | _ => none

def encodeMediaKind : MediaKind → Bytes
  | .image => [0]
  | .video => [1]
  | .audio => [2]
  | .file => [3]

def decodeMediaKind : Bytes → Option (MediaKind × Bytes)
  | 0 :: rest => some (.image, rest)
  | 1 :: rest => some (.video, rest)
  | 2 :: rest => some (.audio, rest)
  | 3 :: rest => some (.file, rest)
  | _ => none

def encodeMediaAttachment (a : MediaAttachment) : Bytes :=
  encodeString a.id ++ (encodeMediaKind a.kind ++ (encodeNat a.size ++
    (encodeString a.mimeType ++ (encodeString a.key ++ encodeString a.digest))))

def decodeMediaAttachment (bs : Bytes) : Option (MediaAttachment × Bytes) :=
  (decodeString bs).bind fun (id, bs) =>
  (decodeMediaKind bs).bind fun (kind, bs) =>
  (decodeNat bs).bind fun (size, bs) =>
  (decodeString bs).bind fun (mimeType, bs) =>
  (decodeString bs).bind fun (key, bs) =>
  (decodeString bs).bind fun (digest, bs) =>
  some ({ id := id, kind := kind, size := size, mimeType := mimeType,
          key := key, digest := digest }, bs)

def encodeCipherEnvelope (c : CipherEnvelope) : Bytes :=
  encodeString c.ciphertext ++ (encodeCipherScheme c.scheme ++
    (encodeString c.keyId ++ encodeOption (encodeList encodeMediaAttachment) c.media))

def decodeCipherEnvelope (bs : Bytes) : Option (CipherEnvelope × Bytes) :=
  (decodeString bs).bind fun (ciphertext, bs) =>
  (decodeCipherScheme bs).bind fun (scheme, bs) =>
  (decodeString bs).bind fun (keyId, bs) =>
  (decodeOption (decodeList decodeMediaAttachment) bs).bind fun (media, bs) =>
  some ({ ciphertext := ciphertext, scheme := scheme, keyId := keyId,
          media := media }, bs)

def encodeSticker (st : StickerPayload) : Bytes :=
  encodeString st.id ++ (encodeString st.url ++
    (encodeOption encodeString st.name ++ encodeOption encodeString st.pack))

def decodeSticker (bs : Bytes) : Option (StickerPayload × Bytes) :=
  (decodeString bs).bind fun (id, bs) =>
  (decodeString bs).bind fun (url, bs) =>
  (decodeOption decodeString bs).bind fun (name, bs) =>
  (decodeOption decodeString bs).bind fun (pack, bs) =>
  some ({ id := id, url := url, name := name, pack := pack }, bs)

/-- `Buffer.from(JSON.stringify(payload), 'utf8')` modelled as an
injective byte encoding of the payload record. -/
def serializePayload (payload : SensitiveMessagePayload) : Bytes :=
  encodeCipherEnvelope payload.body ++
    (encodeOption (encodeList (encodePair encodeString encodeString)) payload.metadata ++
      encodeOption encodeSticker payload.sticker)

/-- `JSON.parse` of the decrypted bytes plus the missing-`body` check of
`decryptMessagePayload`: yields the payload record or fails. -/
def parsePayload (bs : Bytes) : Option SensitiveMessagePayload :=
  (decodeCipherEnvelope bs).bind fun (body, bs) =>
  (decodeOption (decodeList (decodePair decodeString decodeString)) bs).bind fun (metadata, bs) =>
  (decodeOption decodeSticker bs).bind fun (sticker, bs) =>
  if bs.isEmpty then some { body := body, metadata := metadata, sticker := sticker }
  else none

theorem charListRoundTrip (l : List Char) : (l.map Char.toNat).map Char.ofNat = l := by
  induction l with
  | nil => rfl
  | cons c cs ih => simp [Char.ofNat_toNat, ih]

theorem decodeString_encode (s : String) (r : Bytes) :
    decodeString (encodeString s ++ r) = some (s, r) := by
  have hsl : s.length = (s.data.map Char.toNat).length := by
    rw [List.length_map]
    exact rfl
  have hle : s.length ≤ (s.data.map Char.toNat ++ r).length := by
    rw [hsl]; simp
  have htake : (s.data.map Char.toNat ++ r).take s.length = s.data.map Char.toNat := by
    rw [hsl, List.take_left]
  have hdrop : (s.data.map Char.toNat ++ r).drop s.length = r := by
    rw [hsl, List.drop_left]
  show decodeString (s.length :: (s.data.map Char.toNat ++ r)) = some (s, r)
  simp only [decodeString]
  rw [if_pos hle, htake, hdrop, charListRoundTrip]

theorem decodeNat_encode (n : Nat) (r : Bytes) :
    decodeNat (encodeNat n ++ r) = some (n, r) := rfl

theorem decodeOption_encode (f : α → Bytes) (g : Bytes → Option (α × Bytes))
    (hg : ∀ a r, g (f a ++ r) = some (a, r)) (o : Option α) (r : Bytes) :
    decodeOption g (encodeOption f o ++ r) = some (o, r) := by
  cases o with
  | none => rfl
  | some a => simp [encodeOption, decodeOption, hg]

theorem decodePair_encode (f g : String → Bytes) (df dg : Bytes → Option (String × Bytes))
    (hf : ∀ a r, df (f a ++ r) = some (a, r)) (hg : ∀ a r, dg (g a ++ r) = some (a, r))
    (p : String × String) (r : Bytes) :
    decodePair df dg (encodePair f g p ++ r) = some (p, r) := by
  simp [encodePair, decodePair, List.append_assoc, hf, hg]

theorem decodeCount_encode (f : α → Bytes) (g : Bytes → Option (α × Bytes))
    (hg : ∀ a r, g (f a ++ r) = some (a, r)) (l : List α) (r : Bytes) :
    decodeCount g l.length (l.flatMap f ++ r) = some (l, r) := by
  induction l generalizing r with
  | nil => rfl
  | cons a as ih =>
    simp [decodeCount, List.append_assoc, hg, ih]

theorem decodeList_encode (f : α → Bytes) (g : Bytes → Option (α × Bytes))
    (hg : ∀ a r, g (f a ++ r) = some (a, r)) (l : List α) (r : Bytes) :
    decodeList g (encodeList f l ++ r) = some (l, r) := by
  simp [encodeList, decodeList, decodeCount_encode f g hg]

theorem decodeCipherScheme_encode (c : CipherScheme) (r : Bytes) :
    decodeCipherScheme (encodeCipherScheme c ++ r) = some (c, r) := by
  cases c <;> rfl

theorem decodeMediaKind_encode (k : MediaKind) (r : Bytes) :
    decodeMediaKind (encodeMediaKind k ++ r) = some (k, r) := by
  cases k <;> rfl

theorem decodeMediaAttachment_encode (a : MediaAttachment) (r : Bytes) :
    decodeMediaAttachment (encodeMediaAttachment a ++ r) = some (a, r) := by
  simp [encodeMediaAttachment, decodeMediaAttachment, List.append_assoc,
    decodeString_encode, decodeMediaKind_encode, decodeNat_encode]

theorem decodeCipherEnvelope_encode (c : CipherEnvelope) (r : Bytes) :
    decodeCipherEnvelope (encodeCipherEnvelope c ++ r) = some (c, r) := by
  simp [encodeCipherEnvelope, decodeCipherEnvelope, List.append_assoc,
    decodeString_encode, decodeCipherScheme_encode,
    decodeOption_encode _ _ (decodeList_encode _ _ (decodeMediaAttachment_encode))]

theorem decodeSticker_encode (st : StickerPayload) (r : Bytes) :
    decodeSticker (encodeSticker st ++ r) = some (st, r) := by
  simp [encodeSticker, decodeSticker, List.append_assoc, decodeString_encode,
    decodeOption_encode _ _ decodeString_encode]

theorem parsePayload_serialize (payload : SensitiveMessagePayload) :
    parsePayload (serializePayload payload) = some payload := by
  have h := decodeCipherEnvelope_encode payload.body
    (encodeOption (encodeList (encodePair encodeString encodeString)) payload.metadata ++
      encodeOption encodeSticker payload.sticker)
  have hmeta := decodeOption_encode _ _
    (decodeList_encode _ _ (decodePair_encode _ _ _ _ decodeString_encode decodeString_encode))
    payload.metadata (encodeOption encodeSticker payload.sticker)
  have hsticker := decodeOption_encode _ _ decodeSticker_encode payload.sticker ([] : Bytes)
  rw [List.append_nil] at hsticker
  simp [serializePayload, parsePayload, h, hmeta, hsticker]

/-- The keystream of the symbolic cipher; derived from key and nonce. -/
def keystreamByte (key iv : Bytes) (i : Nat) : Nat :=
  (key.sum + iv.sum + i) % 256

/-- Keystream XOR starting at stream offset `i` (the cipher core of
`cipher.update`/`cipher.final`). -/
def xorFrom (key iv : Bytes) (i : Nat) : Bytes → Bytes
  | [] => []
  | b :: rest => (b ^^^ keystreamByte key iv i) :: xorFrom key iv (i + 1) rest

/-- The authentication tag over key, nonce and ciphertext
(`cipher.getAuthTag`), modelled as a collision-free function. -/
def authTagBytes (key iv ciphertext : Bytes) : Bytes :=
  key.length :: (key ++ (iv.length :: (iv ++ ciphertext)))

theorem xorFrom_involutive (key iv : Bytes) (i : Nat) (data : Bytes) :
    xorFrom key iv i (xorFrom key iv i data) = data := by
  induction data generalizing i with
  | nil => rfl
  | cons b rest ih => simp [xorFrom, Nat.xor_cancel_right, ih]

theorem authTagBytes_inj {k1 i1 c1 k2 i2 c2 : Bytes}
    (h : authTagBytes k1 i1 c1 = authTagBytes k2 i2 c2) :
    k1 = k2 ∧ i1 = i2 ∧ c1 = c2 := by
  simp only [authTagBytes, List.cons.injEq] at h
  obtain ⟨hlen, h⟩ := h
  obtain ⟨hk, h⟩ := List.append_inj h hlen
  simp only [List.cons.injEq] at h
  obtain ⟨hlen2, h2⟩ := h
  obtain ⟨hi, hc⟩ := List.append_inj h2 hlen2
  exact ⟨hk, hi, hc⟩

/-- `encryptMessagePayload(payload, key)` (crypto.ts): rejects keys that
are not exactly 32 bytes, serializes `{body, metadata, sticker}` and
applies the authenticated cipher.  The fresh random 12-byte nonce
(`randomBytes(IV_LENGTH)`) of each call is supplied by the caller as
`iv`. -/
def encryptMessagePayload (payload : SensitiveMessagePayload) (key : Bytes)
    (iv : Bytes) : Except String EncryptedMessagePayload :=
  if key.length ≠ 32 then .error "Message encryption key must be 32 bytes."
  else
    let serialized := serializePayload payload
    let encrypted := xorFrom key iv 0 serialized
    .ok { ciphertext := encrypted, iv := iv,
          authTag := authTagBytes key iv encrypted }

/-- `decryptMessagePayload(payload, key)` (crypto.ts): rejects keys that
are not exactly 32 bytes; `decipher.final()` throws when the stored auth
tag does not authenticate the ciphertext under the key and nonce;
otherwise the bytes are deciphered and parsed (a parse failure or a
missing `body` throws). -/
def decryptMessagePayload (payload : EncryptedMessagePayload) (key : Bytes) :
    Except String SensitiveMessagePayload :=
  if key.length ≠ 32 then .error "Message encryption key must be 32 bytes."
  else if payload.authTag ≠ authTagBytes key payload.iv payload.ciphertext then
    .error "Unsupported state or unable to authenticate data"
  else
    match parsePayload (xorFrom key payload.iv 0 payload.ciphertext) with
    | none => .error "Decrypted payload missing body"
    | some parsed => .ok parsed

/-- The encrypted envelope `encryptMessagePayload` produces for a payload
under a 32-byte key and a nonce. -/
def encryptedOf (payload : SensitiveMessagePayload) (key iv : Bytes) :
    EncryptedMessagePayload :=
  { ciphertext := xorFrom key iv 0 (serializePayload payload)
    iv := iv
    authTag := authTagBytes key iv (xorFrom key iv 0 (serializePayload payload)) }

/-- Claim C7: for every `{body, metadata, sticker}` payload and 32-byte
key, decrypting the encryption of the payload returns the payload;
decrypting with a different key, or decrypting a tampered ciphertext or
auth tag, fails (throws) deterministically; and both directions reject
keys whose length is not exactly 32 bytes. -/
theorem atrest_cipher_roundtrip_and_rejection
    (payload : SensitiveMessagePayload) (key key2 iv : Bytes)
    (hkey : key.length = 32) :
    (∃ enc, encryptMessagePayload payload key iv = .ok enc ∧
      decryptMessagePayload enc key = .ok payload ∧
      (key2 ≠ key → ∃ msg, decryptMessagePayload enc key2 = .error msg) ∧
      (∀ ct, ct ≠ enc.ciphertext →
        ∃ msg, decryptMessagePayload { enc with ciphertext := ct } key = .error msg) ∧
      (∀ tag, tag ≠ enc.authTag →
        ∃ msg, decryptMessagePayload { enc with authTag := tag } key = .error msg)) ∧
    (∀ badKey : Bytes, badKey.length ≠ 32 →
      encryptMessagePayload payload badKey iv =
        .error "Message encryption key must be 32 bytes." ∧
      ∀ enc, decryptMessagePayload enc badKey =
        .error "Message encryption key must be 32 bytes.") := by
  constructor
  · refine ⟨encryptedOf payload key iv, ?_, ?_, ?_, ?_, ?_⟩
    · simp [encryptMessagePayload, encryptedOf, hkey]
    · simp [decryptMessagePayload, encryptedOf, hkey, xorFrom_involutive,
        parsePayload_serialize]
    · intro hne
      by_cases h2 : key2.length = 32
      · refine ⟨"Unsupported state or unable to authenticate data", ?_⟩
        have htag : authTagBytes key iv (xorFrom key iv 0 (serializePayload payload)) ≠
            authTagBytes key2 iv (xorFrom key iv 0 (serializePayload payload)) := by
          intro h
          exact hne ((authTagBytes_inj h).1.symm)
        simp [decryptMessagePayload, encryptedOf, h2, htag]
      · refine ⟨"Message encryption key must be 32 bytes.", ?_⟩
        simp [decryptMessagePayload, h2]
    · intro ct hct
      refine ⟨"Unsupported state or unable to authenticate data", ?_⟩
      have htag : authTagBytes key iv (xorFrom key iv 0 (serializePayload payload)) ≠
          authTagBytes key iv ct := by
        intro h
        exact hct ((authTagBytes_inj h).2.2).symm
      simp [decryptMessagePayload, encryptedOf, hkey, htag]
    · intro tag htag
      refine ⟨"Unsupported state or unable to authenticate data", ?_⟩
      simp only [encryptedOf] at htag
      simp [decryptMessagePayload, encryptedOf, hkey, htag]
  · intro badKey hbad
    refine ⟨?_, fun enc => ?_⟩
    · simp [encryptMessagePayload, hbad]
    · simp [decryptMessagePayload, hbad]

/-- A 32-byte server key for the witness. -/
def demoKey : Bytes := List.replicate 32 7

/-- A second, different 32-byte key. -/
def demoKey2 : Bytes := List.replicate 32 9

/-- A 12-byte nonce. -/
def demoIv : Bytes := List.replicate 12 1

/-- A key of the wrong length. -/
def demoShortKey : Bytes := List.replicate 16 7

/-- A sample sensitive payload exercising every optional field. -/
def demoSensitivePayload : SensitiveMessagePayload :=
  { body := { ciphertext := "cipher", scheme := CipherScheme.signal,
              keyId := "conv-1:dev-1",
              media := some [{ id := "att", kind := MediaKind.image, size := 3,
                               mimeType := "image/png", key := "k", digest := "d" }] }
    metadata := some [("a", "b")]
    sticker := some { id := "s", url := "https://example.com/s.png",
                      name := some "wave", pack := none } }

/-- Witness for claim C7: the round trip holds at a concrete payload and
32-byte key, and a 16-byte key is rejected. -/
theorem atrest_cipher_roundtrip_and_rejection_witness :
    (∃ enc, encryptMessagePayload demoSensitivePayload demoKey demoIv = .ok enc ∧
      decryptMessagePayload enc demoKey = .ok demoSensitivePayload) ∧
    encryptMessagePayload demoSensitivePayload demoShortKey demoIv =
      .error "Message encryption key must be 32 bytes." := by
  obtain ⟨⟨enc, h1, h2, _, _, _⟩, hbad⟩ :=
    atrest_cipher_roundtrip_and_rejection demoSensitivePayload demoKey demoKey2 demoIv
      (by simp [demoKey])
  exact ⟨⟨enc, h1, h2⟩, (hbad demoShortKey (by simp [demoShortKey])).1⟩

/-! ## Message store (modules/messages/store.ts) -/

/-- `MessageDocument` (store.ts): the shape persisted in the `messages`
collection — plaintext routing fields plus the encrypted payload. -/
structure MessageDocument where
  _id : String
  tenantId : String
  conversationId : String
  senderId : String
  senderDeviceId : String
  sentAt : Nat
  deliveredAt : Option Nat
  readAt : Option Nat
  type : MessageType
  encryptedPayload : EncryptedMessagePayload
  createdAt : Nat
  updatedAt : Nat
deriving DecidableEq, Repr

/-- `MessageRecord` (store.ts): the decrypted view handed to callers. -/
structure MessageRecord where
  _id : String
  tenantId : String
  conversationId : String
  senderId : String
  senderDeviceId : String
  sentAt : Nat
  deliveredAt : Option Nat
  readAt : Option Nat
  type : MessageType
  body : CipherEnvelope
  metadata : Option (List (String × String))
  sticker : Option StickerPayload
  createdAt : Nat
  updatedAt : Nat
deriving DecidableEq, Repr

/-- `SaveMessageInput` (store.ts). -/
structure SaveMessageInput where
  id : String
  tenantId : String
  conversationId : String
  senderId : String
  senderDeviceId : String
  sentAt : Nat
  deliveredAt : Option Nat
  readAt : Option Nat
  type : MessageType
  body : CipherEnvelope
  metadata : Option (List (String × String))
  sticker : Option StickerPayload
deriving DecidableEq, Repr

/-- `ListMessagesOptions` (store.ts). -/
structure ListMessagesOptions where
  limit : Option Nat
  before : Option Nat
deriving DecidableEq, Repr

/-- `toMessageRecord(document, encryptionKey)` (store.ts): decrypts the
stored payload — a decryption failure throws out of the call. -/
def toMessageRecord (document : MessageDocument) (encryptionKey : Bytes) :
    Except String MessageRecord :=
  (decryptMessagePayload document.encryptedPayload encryptionKey).map fun decrypted =>
    { _id := document._id
      tenantId := document.tenantId
      conversationId := document.conversationId
      senderId := document.senderId
      senderDeviceId := document.senderDeviceId
      sentAt := document.sentAt
      deliveredAt := document.deliveredAt
      readAt := document.readAt
      type := document.type
      body := decrypted.body
      metadata := decrypted.metadata
      sticker := decrypted.sticker
      createdAt := document.createdAt
      updatedAt := document.updatedAt }

/-- The `const record = {...}` built by `saveMessage` (store.ts). -/
def buildMessageDocument (input : SaveMessageInput)
    (encryptedPayload : EncryptedMessagePayload) (now : Nat) : MessageDocument :=
  { _id := input.id
    tenantId := input.tenantId
    conversationId := input.conversationId
    senderId := input.senderId
    senderDeviceId := input.senderDeviceId
    sentAt := input.sentAt
    deliveredAt := input.deliveredAt
    readAt := input.readAt
    type := input.type
    encryptedPayload := encryptedPayload
    createdAt := now
    updatedAt := now }

/-- The `$set` clause of the upsert in `saveMessage` (store.ts): every
written field except `createdAt`, which is `$setOnInsert` only. -/
def applyMessageSet (existing record : MessageDocument) (now : Nat) : MessageDocument :=
  { existing with
      tenantId := record.tenantId
      conversationId := record.conversationId
      senderId := record.senderId
      senderDeviceId := record.senderDeviceId
      sentAt := record.sentAt
      deliveredAt := record.deliveredAt
      readAt := record.readAt
      type := record.type
      encryptedPayload := record.encryptedPayload
      updatedAt := now }

/-- `updateOne` applied to the first document matching `_id`. -/
def updateFirstMessage (coll : List MessageDocument) (record : MessageDocument)
    (now : Nat) : List MessageDocument :=
  match coll with
  | [] => []
  | d :: rest =>
    if d._id == record._id then applyMessageSet d record now :: rest
    else d :: updateFirstMessage rest record now

/-- `collection.updateOne({_id}, {$setOnInsert, $set}, {upsert: true})`
(store.ts): update the first matching document, or insert the record
(whose `createdAt`/`updatedAt` are already `now`). -/
def updateOneUpsert (coll : List MessageDocument) (record : MessageDocument)
    (now : Nat) : List MessageDocument :=
  if coll.any fun d => d._id == record._id then updateFirstMessage coll record now
  else coll ++ [record]

/-- `saveMessage(db, encryptionKey, input)` (store.ts): encrypt the
sensitive slice (with the fresh nonce `iv`), upsert by message id, then
re-read and decrypt the persisted document.  Returns the new collection
contents alongside the returned record. -/
def saveMessage (coll : List MessageDocument) (encryptionKey : Bytes)
    (input : SaveMessageInput) (now : Nat) (iv : Bytes) :
    Except String (List MessageDocument × MessageRecord) :=
  match encryptMessagePayload
      { body := input.body, metadata := input.metadata, sticker := input.sticker }
      encryptionKey iv with
  | .error e => .error e
  | .ok encryptedPayload =>
    let record := buildMessageDocument input encryptedPayload now
    let coll2 := updateOneUpsert coll record now
    match coll2.find? fun d => d._id == record._id with
    | none => (toMessageRecord record encryptionKey).map fun r => (coll2, r)
    | some persisted => (toMessageRecord persisted encryptionKey).map fun r => (coll2, r)

/-- Insertion step of the `sort({sentAt: -1})` model. -/
def sentAtDescInsert (d : MessageDocument) :
    List MessageDocument → List MessageDocument
  | [] => [d]
  | e :: rest =>
    if e.sentAt ≤ d.sentAt then d :: e :: rest else e :: sentAtDescInsert d rest

/-- `find(query).sort({sentAt: -1})` (store.ts): most recent first. -/
def sortBySentAtDesc (coll : List MessageDocument) : List MessageDocument :=
  coll.foldr sentAtDescInsert []

/-- `listMessagesForConversation(db, encryptionKey, tenantId,
conversationId, options)` (store.ts): filter by tenant, conversation and
optional `before` bound, take the most recent `limit` (default 50,
clamped to [1, 200]), return them in chronological order, decrypting each
on read with `toMessageRecord` — whose throw propagates out of the
whole call. -/
def listMessagesForConversation (coll : List MessageDocument)
    (encryptionKey : Bytes) (tenantId conversationId : String)
    (options : ListMessagesOptions) : Except String (List MessageRecord) :=
  let matching := coll.filter fun d =>
    d.tenantId == tenantId && d.conversationId == conversationId &&
      (match options.before with
        | some before => decide (d.sentAt < before)
        | none => true)
  let limit := max 1 (min (options.limit.getD 50) 200)
  let page := ((sortBySentAtDesc matching).take limit).reverse
  page.mapM fun record => toMessageRecord record encryptionKey

theorem encrypt_eq (payload : SensitiveMessagePayload) (key iv : Bytes)
    (hkey : key.length = 32) :
    encryptMessagePayload payload key iv = .ok (encryptedOf payload key iv) := by
  simp [encryptMessagePayload, encryptedOf, hkey]

theorem decrypt_encryptedOf (payload : SensitiveMessagePayload) (key iv : Bytes)
    (hkey : key.length = 32) :
    decryptMessagePayload (encryptedOf payload key iv) key = .ok payload := by
  simp [decryptMessagePayload, encryptedOf, hkey, xorFrom_involutive,
    parsePayload_serialize]

theorem find?_append_left_none {α : Type} {p : α → Bool}
    {l1 l2 : List α} (h : ∀ d ∈ l1, p d = false) :
    (l1 ++ l2).find? p = l2.find? p := by
  induction l1 with
  | nil => rfl
  | cons d rest ih =>
    simp only [List.cons_append, List.find?]
    rw [h d (by simp)]
    exact ih fun e he => h e (by simp [he])

theorem updateFirstMessage_append_last (coll : List MessageDocument)
    (record target : MessageDocument) (now : Nat)
    (h : ∀ d ∈ coll, (d._id == record._id) = false) :
    updateFirstMessage (coll ++ [target]) record now =
      coll ++ [if target._id == record._id then applyMessageSet target record now
               else target] := by
  induction coll with
  | nil =>
    simp only [List.nil_append, updateFirstMessage]
    split <;> simp_all
  | cons d rest ih =>
    simp only [List.cons_append, updateFirstMessage]
    rw [h d (by simp)]
    simp only [if_neg Bool.false_ne_true, List.append_eq]
    rw [ih fun e he => h e (by simp [he])]

/-- The `{body, metadata, sticker}` slice `saveMessage` encrypts. -/
def sensitiveOf (input : SaveMessageInput) : SensitiveMessagePayload :=
  { body := input.body, metadata := input.metadata, sticker := input.sticker }

/-- The record `saveMessage` returns for a freshly inserted message. -/
def freshSavedRecord (input : SaveMessageInput) (now : Nat) : MessageRecord :=
  { _id := input.id
    tenantId := input.tenantId
    conversationId := input.conversationId
    senderId := input.senderId
    senderDeviceId := input.senderDeviceId
    sentAt := input.sentAt
    deliveredAt := input.deliveredAt
    readAt := input.readAt
    type := input.type
    body := input.body
    metadata := input.metadata
    sticker := input.sticker
    createdAt := now
    updatedAt := now }

/-- The record `saveMessage` returns when it overwrites `existing`. -/
def mergedSavedRecord (existing : MessageDocument) (input : SaveMessageInput)
    (now : Nat) : MessageRecord :=
  { _id := existing._id
    tenantId := input.tenantId
    conversationId := input.conversationId
    senderId := input.senderId
    senderDeviceId := input.senderDeviceId
    sentAt := input.sentAt
    deliveredAt := input.deliveredAt
    readAt := input.readAt
    type := input.type
    body := input.body
    metadata := input.metadata
    sticker := input.sticker
    createdAt := existing.createdAt
    updatedAt := now }

theorem saveMessage_fresh (coll0 : List MessageDocument) (key iv : Bytes)
    (input : SaveMessageInput) (now : Nat) (hkey : key.length = 32)
    (hfresh : ∀ d ∈ coll0, (d._id == input.id) = false) :
    saveMessage coll0 key input now iv =
      .ok (coll0 ++ [buildMessageDocument input (encryptedOf (sensitiveOf input) key iv) now],
        freshSavedRecord input now) := by
  have hany0 : (coll0.any fun d =>
      d._id == (buildMessageDocument input (encryptedOf (sensitiveOf input) key iv) now)._id)
        = false := by
    rw [List.any_eq_false]
    intro d hd
    simp only [buildMessageDocument]
    simp [hfresh d hd]
  rw [saveMessage]
  rw [show encryptMessagePayload
      { body := input.body, metadata := input.metadata, sticker := input.sticker }
      key iv = .ok (encryptedOf (sensitiveOf input) key iv) from
    encrypt_eq (sensitiveOf input) key iv hkey]
  simp only
  rw [show updateOneUpsert coll0
      (buildMessageDocument input (encryptedOf (sensitiveOf input) key iv) now) now =
      coll0 ++ [buildMessageDocument input (encryptedOf (sensitiveOf input) key iv) now] by
    rw [updateOneUpsert, if_neg]
    simp [hany0]]
  rw [find?_append_left_none fun d hd => by
    simp only [buildMessageDocument]
    simp [hfresh d hd]]
  simp only [List.find?, buildMessageDocument, beq_self_eq_true]
  rw [toMessageRecord, decrypt_encryptedOf (sensitiveOf input) key iv hkey]
  rfl

theorem toMessageRecord_applySet (existing : MessageDocument)
    (input : SaveMessageInput) (key iv : Bytes) (now : Nat)
    (hkey : key.length = 32) :
    toMessageRecord (applyMessageSet existing
      (buildMessageDocument input (encryptedOf (sensitiveOf input) key iv) now) now) key =
      .ok (mergedSavedRecord existing input now) := by
  rw [toMessageRecord]
  rw [show (applyMessageSet existing
      (buildMessageDocument input (encryptedOf (sensitiveOf input) key iv) now)
      now).encryptedPayload = encryptedOf (sensitiveOf input) key iv from rfl]
  rw [decrypt_encryptedOf (sensitiveOf input) key iv hkey]
  rfl

theorem saveMessage_overwrite (coll0 : List MessageDocument)
    (existing : MessageDocument) (key iv : Bytes) (input : SaveMessageInput)
    (now : Nat) (hkey : key.length = 32)
    (hfresh : ∀ d ∈ coll0, (d._id == input.id) = false)
    (hmatch : existing._id = input.id) :
    saveMessage (coll0 ++ [existing]) key input now iv =
      .ok (coll0 ++ [applyMessageSet existing
          (buildMessageDocument input (encryptedOf (sensitiveOf input) key iv) now) now],
        mergedSavedRecord existing input now) := by
  have hbeq : (existing._id == input.id) = true := by simp [hmatch]
  have hany : ((coll0 ++ [existing]).any fun d =>
      d._id == (buildMessageDocument input (encryptedOf (sensitiveOf input) key iv) now)._id)
        = true := by
    simp only [buildMessageDocument, List.any_append, List.any_cons, List.any_nil]
    simp [hmatch]
  rw [saveMessage]
  rw [show encryptMessagePayload
      { body := input.body, metadata := input.metadata, sticker := input.sticker }
      key iv = .ok (encryptedOf (sensitiveOf input) key iv) from
    encrypt_eq (sensitiveOf input) key iv hkey]
  simp only
  rw [show updateOneUpsert (coll0 ++ [existing])
      (buildMessageDocument input (encryptedOf (sensitiveOf input) key iv) now) now =
      updateFirstMessage (coll0 ++ [existing])
        (buildMessageDocument input (encryptedOf (sensitiveOf input) key iv) now) now by
    rw [updateOneUpsert, if_pos]
    simp [hany]]
  rw [updateFirstMessage_append_last _ _ _ _ fun d hd => by
    simp only [buildMessageDocument]
    exact hfresh d hd]
  rw [show (if existing._id ==
      (buildMessageDocument input (encryptedOf (sensitiveOf input) key iv) now)._id then
        applyMessageSet existing
          (buildMessageDocument input (encryptedOf (sensitiveOf input) key iv) now) now
      else existing) =
      applyMessageSet existing
        (buildMessageDocument input (encryptedOf (sensitiveOf input) key iv) now) now by
    rw [if_pos]
    simpa [buildMessageDocument] using hbeq]
  rw [find?_append_left_none fun d hd => by
    simp only [buildMessageDocument]
    exact hfresh d hd]
  rw [show List.find? (fun d =>
      d._id == (buildMessageDocument input (encryptedOf (sensitiveOf input) key iv) now)._id)
      [applyMessageSet existing
        (buildMessageDocument input (encryptedOf (sensitiveOf input) key iv) now) now] =
      some (applyMessageSet existing
        (buildMessageDocument input (encryptedOf (sensitiveOf input) key iv) now) now) by
    rw [List.find?]
    rw [show ((applyMessageSet existing
        (buildMessageDocument input (encryptedOf (sensitiveOf input) key iv) now) now)._id ==
        (buildMessageDocument input (encryptedOf (sensitiveOf input) key iv) now)._id) = true by
      simp [applyMessageSet, buildMessageDocument, hmatch]]]
  simp only [toMessageRecord_applySet existing input key iv now hkey]
  rfl

theorem find?_updateFirstMessage (coll : List MessageDocument)
    (record : MessageDocument) (now : Nat)
    (h : (coll.any fun d => d._id == record._id) = true) :
    ∃ existing, (existing._id == record._id) = true ∧
      (updateFirstMessage coll record now).find? (fun d => d._id == record._id) =
        some (applyMessageSet existing record now) := by
  induction coll with
  | nil => simp at h
  | cons d rest ih =>
    by_cases hd : (d._id == record._id) = true
    · refine ⟨d, hd, ?_⟩
      rw [updateFirstMessage, if_pos hd, List.find?]
      rw [show ((applyMessageSet d record now)._id == record._id) = true from hd]
    · have h2 : (rest.any fun e => e._id == record._id) = true := by
        simpa [hd] using h
      obtain ⟨e, he1, he2⟩ := ih h2
      refine ⟨e, he1, ?_⟩
      rw [updateFirstMessage, if_neg hd, List.find?]
      rw [show (d._id == record._id) = false by simpa using hd]
      exact he2

theorem saveMessage_ok (coll : List MessageDocument) (key iv : Bytes)
    (input : SaveMessageInput) (now : Nat) (hkey : key.length = 32) :
    ∃ coll2 rec, saveMessage coll key input now iv = .ok (coll2, rec) ∧
      rec._id = input.id ∧
      rec.tenantId = input.tenantId ∧
      rec.conversationId = input.conversationId ∧
      rec.senderId = input.senderId ∧
      rec.senderDeviceId = input.senderDeviceId ∧
      rec.sentAt = input.sentAt ∧
      rec.type = input.type ∧
      rec.body = input.body ∧
      rec.metadata = input.metadata ∧
      rec.sticker = input.sticker := by
  by_cases hany : (coll.any fun d => d._id == input.id) = true
  · have hany2 : (coll.any fun d =>
        d._id == (buildMessageDocument input (encryptedOf (sensitiveOf input) key iv)
          now)._id) = true := hany
    obtain ⟨existing, hex, hfind⟩ := find?_updateFirstMessage coll
      (buildMessageDocument input (encryptedOf (sensitiveOf input) key iv) now) now hany2
    refine ⟨updateFirstMessage coll
      (buildMessageDocument input (encryptedOf (sensitiveOf input) key iv) now) now,
      mergedSavedRecord existing input now, ?_,
      by simpa using hex, rfl, rfl, rfl, rfl, rfl, rfl, rfl, rfl, rfl⟩
    rw [saveMessage]
    rw [show encryptMessagePayload
        { body := input.body, metadata := input.metadata, sticker := input.sticker }
        key iv = .ok (encryptedOf (sensitiveOf input) key iv) from
      encrypt_eq (sensitiveOf input) key iv hkey]
    simp only
    rw [show updateOneUpsert coll
        (buildMessageDocument input (encryptedOf (sensitiveOf input) key iv) now) now =
        updateFirstMessage coll
          (buildMessageDocument input (encryptedOf (sensitiveOf input) key iv) now) now by
      rw [updateOneUpsert, if_pos hany2]]
    rw [hfind]
    simp only [toMessageRecord_applySet existing input key iv now hkey]
    rfl
  · have hfresh : ∀ d ∈ coll, (d._id == input.id) = false := by
      have hany2 : (coll.any fun d => d._id == input.id) = false :=
        Bool.eq_false_iff.mpr hany
      rw [List.any_eq_false] at hany2
      intro d hd
      simpa using hany2 d hd
    exact ⟨_, freshSavedRecord input now,
      saveMessage_fresh coll key iv input now hkey hfresh,
      rfl, rfl, rfl, rfl, rfl, rfl, rfl, rfl, rfl, rfl⟩

/-- Claim C10: saving a second message under an already-stored id keeps
the first write's `createdAt`, overwrites every other written field
(including the encrypted payload and `updatedAt`) with the second write's
values, and leaves exactly one stored document for that id. -/
theorem save_message_upsert_idempotent (coll0 : List MessageDocument)
    (key iv1 iv2 : Bytes) (input1 input2 : SaveMessageInput) (now1 now2 : Nat)
    (hkey : key.length = 32) (hid : input2.id = input1.id)
    (hfresh : ∀ d ∈ coll0, d._id ≠ input1.id) :
    ∃ coll1 rec1 coll2 rec2,
      saveMessage coll0 key input1 now1 iv1 = .ok (coll1, rec1) ∧
      saveMessage coll1 key input2 now2 iv2 = .ok (coll2, rec2) ∧
      coll2.countP (fun d => d._id == input1.id) = 1 ∧
      ∀ d ∈ coll2, d._id = input1.id →
        d.createdAt = now1 ∧
        d.tenantId = input2.tenantId ∧
        d.conversationId = input2.conversationId ∧
        d.senderId = input2.senderId ∧
        d.senderDeviceId = input2.senderDeviceId ∧
        d.sentAt = input2.sentAt ∧
        d.deliveredAt = input2.deliveredAt ∧
        d.readAt = input2.readAt ∧
        d.type = input2.type ∧
        d.updatedAt = now2 ∧
        encryptMessagePayload (sensitiveOf input2) key iv2 = .ok d.encryptedPayload := by
  have hfresh1 : ∀ d ∈ coll0, (d._id == input1.id) = false := by
    intro d hd
    simp [hfresh d hd]
  have hfresh2 : ∀ d ∈ coll0, (d._id == input2.id) = false := by
    intro d hd
    rw [hid]
    exact hfresh1 d hd
  have h1 := saveMessage_fresh coll0 key iv1 input1 now1 hkey hfresh1
  have hmatch : (buildMessageDocument input1 (encryptedOf (sensitiveOf input1) key iv1)
      now1)._id = input2.id := by
    rw [hid]
    rfl
  have h2 := saveMessage_overwrite coll0
    (buildMessageDocument input1 (encryptedOf (sensitiveOf input1) key iv1) now1)
    key iv2 input2 now2 hkey hfresh2 hmatch
  refine ⟨_, _, _, _, h1, h2, ?_, ?_⟩
  · rw [List.countP_append]
    rw [show coll0.countP (fun d => d._id == input1.id) = 0 by
      rw [List.countP_eq_zero]
      intro d hd
      simp [hfresh d hd]]
    simp [applyMessageSet, buildMessageDocument, List.countP, List.countP.go]
  · intro d hd hdid
    rcases List.mem_append.mp hd with hin | hin
    · exact absurd hdid (hfresh d hin)
    · have hde : d = applyMessageSet
          (buildMessageDocument input1 (encryptedOf (sensitiveOf input1) key iv1) now1)
          (buildMessageDocument input2 (encryptedOf (sensitiveOf input2) key iv2) now2)
          now2 := by
        simpa using hin
      subst hde
      refine ⟨rfl, rfl, rfl, rfl, rfl, rfl, rfl, rfl, rfl, rfl, ?_⟩
      rw [encrypt_eq (sensitiveOf input2) key iv2 hkey]
      rfl

/-- A second 12-byte nonce. -/
def demoIv2 : Bytes := List.replicate 12 2

/-- First write of message id `m1`. -/
def demoSaveInput1 : SaveMessageInput :=
  { id := "m1"
    tenantId := "t1"
    conversationId := "conv-1"
    senderId := "alice"
    senderDeviceId := "dev-1"
    sentAt := 3
    deliveredAt := none
    readAt := none
    type := MessageType.text
    body := { ciphertext := "x", scheme := CipherScheme.signal, keyId := "k", media := none }
    metadata := none
    sticker := none }

/-- Redelivery of message id `m1` with different field values. -/
def demoSaveInput2 : SaveMessageInput :=
  { demoSaveInput1 with
      senderDeviceId := "dev-2"
      sentAt := 9
      body := { ciphertext := "y", scheme := CipherScheme.mls, keyId := "k2", media := none } }

/-- Witness for claim C10 at concrete inputs: two saves of id `m1` into an
empty collection. -/
theorem save_message_upsert_idempotent_witness :
    ∃ coll1 rec1 coll2 rec2,
      saveMessage [] demoKey demoSaveInput1 5 demoIv = .ok (coll1, rec1) ∧
      saveMessage coll1 demoKey demoSaveInput2 9 demoIv2 = .ok (coll2, rec2) ∧
      coll2.countP (fun d => d._id == demoSaveInput1.id) = 1 ∧
      ∀ d ∈ coll2, d._id = demoSaveInput1.id →
        d.createdAt = 5 ∧
        d.tenantId = demoSaveInput2.tenantId ∧
        d.conversationId = demoSaveInput2.conversationId ∧
        d.senderId = demoSaveInput2.senderId ∧
        d.senderDeviceId = demoSaveInput2.senderDeviceId ∧
        d.sentAt = demoSaveInput2.sentAt ∧
        d.deliveredAt = demoSaveInput2.deliveredAt ∧
        d.readAt = demoSaveInput2.readAt ∧
        d.type = demoSaveInput2.type ∧
        d.updatedAt = 9 ∧
        encryptMessagePayload (sensitiveOf demoSaveInput2) demoKey demoIv2 =
          .ok d.encryptedPayload :=
  save_message_upsert_idempotent [] demoKey demoIv demoIv2 demoSaveInput1 demoSaveInput2
    5 9 (by simp [demoKey]) rfl (by simp)

/-- A minimal sensitive payload for the listing scenario. -/
def demoTinyPayload : SensitiveMessagePayload :=
  { body := { ciphertext := "x", scheme := CipherScheme.signal, keyId := "k", media := none }
    metadata := none
    sticker := none }

/-- A stored message whose payload decrypts correctly. -/
def demoGoodDoc : MessageDocument :=
  { _id := "m1"
    tenantId := "t1"
    conversationId := "conv-1"
    senderId := "alice"
    senderDeviceId := "dev-1"
    sentAt := 1
    deliveredAt := none
    readAt := none
    type := MessageType.text
    encryptedPayload := encryptedOf demoTinyPayload demoKey demoIv
    createdAt := 1
    updatedAt := 1 }

/-- A stored message of the same conversation whose auth tag is corrupt,
so decryption fails. -/
def demoCorruptDoc : MessageDocument :=
  { demoGoodDoc with
      _id := "m2"
      sentAt := 2
      encryptedPayload :=
        { encryptedOf demoTinyPayload demoKey demoIv with authTag := [0] } }

/-- Claim C4 (code bug): `listMessagesForConversation` maps the throwing
`toMessageRecord` over the page, so one undecryptable record aborts the
whole page instead of being reported per-record: with one good and one
corrupt stored record in the conversation, the good record decrypts on
its own, yet the page listing returns the decryption error and delivers
no records at all. -/
theorem list_messages_page_aborts_on_bad_record :
    (∃ rec, toMessageRecord demoGoodDoc demoKey = .ok rec) ∧
    decryptMessagePayload demoCorruptDoc.encryptedPayload demoKey =
      .error "Unsupported state or unable to authenticate data" ∧
    listMessagesForConversation [demoGoodDoc, demoCorruptDoc] demoKey "t1" "conv-1"
      { limit := none, before := none } =
      .error "Unsupported state or unable to authenticate data" := by
  have hkey : demoKey.length = 32 := by simp [demoKey]
  have hgood : toMessageRecord demoGoodDoc demoKey =
      .ok { _id := "m1"
            tenantId := "t1"
            conversationId := "conv-1"
            senderId := "alice"
            senderDeviceId := "dev-1"
            sentAt := 1
            deliveredAt := none
            readAt := none
            type := MessageType.text
            body := demoTinyPayload.body
            metadata := demoTinyPayload.metadata
            sticker := demoTinyPayload.sticker
            createdAt := 1
            updatedAt := 1 } := by
    rw [toMessageRecord]
    rw [show demoGoodDoc.encryptedPayload = encryptedOf demoTinyPayload demoKey demoIv
      from rfl]
    rw [decrypt_encryptedOf demoTinyPayload demoKey demoIv hkey]
    rfl
  have hbad : decryptMessagePayload demoCorruptDoc.encryptedPayload demoKey =
      .error "Unsupported state or unable to authenticate data" := by
    rw [decryptMessagePayload, if_neg (by simp [hkey])]
    rw [if_pos]
    show demoCorruptDoc.encryptedPayload.authTag ≠
      authTagBytes demoKey demoCorruptDoc.encryptedPayload.iv
        demoCorruptDoc.encryptedPayload.ciphertext
    rw [show demoCorruptDoc.encryptedPayload.authTag = [0] from rfl]
    rw [show authTagBytes demoKey demoCorruptDoc.encryptedPayload.iv
        demoCorruptDoc.encryptedPayload.ciphertext =
      demoKey.length :: (demoKey ++ (demoCorruptDoc.encryptedPayload.iv.length ::
        (demoCorruptDoc.encryptedPayload.iv ++ demoCorruptDoc.encryptedPayload.ciphertext)))
      from rfl]
    rw [hkey]
    simp
  refine ⟨⟨_, hgood⟩, hbad, ?_⟩
  have hpage : ((sortBySentAtDesc ([demoGoodDoc, demoCorruptDoc].filter fun d =>
      d.tenantId == "t1" && d.conversationId == "conv-1" &&
        (match ({ limit := none, before := none } : ListMessagesOptions).before with
          | some before => decide (d.sentAt < before)
          | none => true))).take
            (max 1 (min ((({ limit := none, before := none } : ListMessagesOptions).limit).getD 50) 200))).reverse =
      [demoGoodDoc, demoCorruptDoc] := by
    rfl
  rw [listMessagesForConversation]
  simp only [hpage]
  rw [List.mapM_cons, hgood, List.mapM_cons]
  rw [show toMessageRecord demoCorruptDoc demoKey =
      .error "Unsupported state or unable to authenticate data" by
    rw [toMessageRecord, hbad]
    rfl]
  rfl

/-! ## Conversation store (modules/conversations/store.ts) and its HTTP
router (modules/conversations/router.ts) -/

/-- `ConversationType` (store.ts). -/
inductive ConversationType where
  | dm
  | group
deriving DecidableEq, Repr

/-- `ConversationRecord` (store.ts). -/
structure ConversationRecord where
  _id : String
  tenantId : String
  type : ConversationType
  members : List String
  metadata : List (String × String)
  name : Option String
  createdAt : Nat
  updatedAt : Nat
  createdBy : String
deriving DecidableEq, Repr

/-- `CreateConversationInput` (store.ts). -/
structure CreateConversationInput where
  type : ConversationType
  members : List String
  metadata : Option (List (String × String))
  name : Option String
deriving DecidableEq, Repr

/-- Insertion step of the JS `Array.prototype.sort` model. -/
def insertSorted (a : String) : List String → List String
  | [] => [a]
  | b :: rest => if a ≤ b then a :: b :: rest else b :: insertSorted a rest

/-- `unique.sort()` of `normalizeMembers` (store.ts). -/
def sortStrings (l : List String) : List String :=
  l.foldr insertSorted []

/-- `normalizeMembers(members)` (store.ts):
`Array.from(new Set(members.filter(Boolean)))` then sort — drop empty
ids, de-duplicate, sort.  (`List.dedup` and the JS `Set` enumerate
duplicates in different orders, which the subsequent sort erases.) -/
def normalizeMembers (members : List String) : List String :=
  sortStrings (members.filter fun m => m != "").dedup

/-- The `members: {$all: members, $size: members.length}` query filter of
`createConversation` (store.ts). -/
def dmMembersMatch (queryMembers : List String) (record : ConversationRecord) : Bool :=
  record.members.length == queryMembers.length &&
    queryMembers.all fun m => record.members.contains m

/-- The dm-deduplication lookup `collection.findOne({tenantId, type: 'dm',
members: ...})` of `createConversation` (store.ts). -/
def findExistingDm (coll : List ConversationRecord) (tenantId : String)
    (queryMembers : List String) : Option ConversationRecord :=
  coll.find? fun record =>
    record.tenantId == tenantId && record.type == ConversationType.dm &&
      dmMembersMatch queryMembers record

/-- `input.name?.trim() || undefined` (store.ts). -/
def normalizeName : Option String → Option String
  | none => none
  | some s =>
    let t := s.trim
    if t = "" then none else some t

/-- The `const record = {...}` inserted by `createConversation`
(store.ts); `nanoid` is modelled by the caller-supplied `newId`. -/
def newConversationRecord (tenantId creatorId : String)
    (input : CreateConversationInput) (members : List String) (newId : String)
    (now : Nat) : ConversationRecord :=
  { _id := newId
    tenantId := tenantId
    type := input.type
    members := members
    metadata := input.metadata.getD []
    name := normalizeName input.name
    createdAt := now
    updatedAt := now
    createdBy := creatorId }

/-- `createConversation(db, tenantId, creatorId, input)` (store.ts):
normalize the requested members plus the creator; a `dm` must have
exactly two members and reuses an existing conversation with the same
member set (`created: false`, nothing inserted); a `group` needs at least
two members; otherwise insert a fresh record (`created: true`). -/
def createConversation (coll : List ConversationRecord) (tenantId creatorId : String)
    (input : CreateConversationInput) (newId : String) (now : Nat) :
    Except String (List ConversationRecord × ConversationRecord × Bool) :=
  let members := normalizeMembers (input.members ++ [creatorId])
  if input.type = ConversationType.dm ∧ members.length ≠ 2 then
    .error "Direct messages must include exactly two participants (including the creator)."
  else
    match (if input.type = ConversationType.dm then findExistingDm coll tenantId members
           else none) with
    | some existing => .ok (coll, existing, false)
    | none =>
      if input.type = ConversationType.group ∧ members.length < 2 then
        .error "Group conversations require at least two members."
      else
        let record := newConversationRecord tenantId creatorId input members newId now
        .ok (coll ++ [record], record, true)

/-- A broadcast fired by an HTTP route via `app.broadcastToTenant`. -/
structure BroadcastCall where
  tenantId : String
  event : String
deriving DecidableEq, Repr

/-- The `POST /v1/conversations` handler (router.ts): create (or find)
the conversation and broadcast `conversation.created` to the tenant only
when a record was actually inserted (`created`). -/
def createConversationRoute (coll : List ConversationRecord)
    (tenantId userId : String) (input : CreateConversationInput) (newId : String)
    (now : Nat) :
    Except String (List ConversationRecord × ConversationRecord × List BroadcastCall) :=
  (createConversation coll tenantId userId input newId now).map
    fun (coll2, record, created) =>
      (coll2, record,
        if created then [{ tenantId := tenantId, event := "conversation.created" }]
        else [])

theorem insertSorted_pair (A B : String) : insertSorted B [A] = insertSorted A [B] := by
  simp only [insertSorted]
  rcases le_total A B with h | h
  · by_cases h2 : B ≤ A
    · have : A = B := le_antisymm h h2
      simp [this]
    · simp [h, h2]
  · by_cases h2 : A ≤ B
    · have : A = B := le_antisymm h2 h
      simp [this]
    · simp [h, h2]

theorem normalizeMembers_pair (A B : String) (hA : A ≠ "") (hB : B ≠ "")
    (hAB : A ≠ B) :
    normalizeMembers ([A, B] ++ [A]) = insertSorted B [A] ∧
    normalizeMembers ([B, A] ++ [B]) = insertSorted B [A] ∧
    (insertSorted B [A]).length = 2 := by
  have hBA : B ≠ A := fun h => hAB h.symm
  refine ⟨?_, ?_, ?_⟩
  · rw [normalizeMembers]
    rw [show ([A, B] ++ [A]).filter (fun m => m != "") = [A, B, A] by simp [hA, hB]]
    rw [show ([A, B, A] : List String).dedup = [B, A] by
      rw [List.dedup_cons_of_mem (by simp)]
      rw [List.dedup_cons_of_not_mem (by simp [hBA])]
      rw [List.dedup_cons_of_not_mem (by simp)]
      rfl]
    rfl
  · rw [normalizeMembers]
    rw [show ([B, A] ++ [B]).filter (fun m => m != "") = [B, A, B] by simp [hA, hB]]
    rw [show ([B, A, B] : List String).dedup = [A, B] by
      rw [List.dedup_cons_of_mem (by simp)]
      rw [List.dedup_cons_of_not_mem (by simp [hAB])]
      rw [List.dedup_cons_of_not_mem (by simp)]
      rfl]
    show sortStrings [A, B] = insertSorted B [A]
    rw [show sortStrings [A, B] = insertSorted A [B] from rfl]
    exact (insertSorted_pair A B).symm
  · simp only [insertSorted]
    split <;> simp [insertSorted]

theorem all_contains_self (l : List String) :
    (l.all fun m => l.contains m) = true := by
  rw [List.all_eq_true]
  intro m hm
  exact List.elem_iff.mpr hm

/-- Claim C5: creating a `dm` for `{A, B}` and then again for `{B, A}` (in
the same tenant, with no pre-existing dm for that pair) returns the same
conversation record both times; only the first call inserts a record and
only the first call broadcasts `conversation.created` to the tenant. -/
theorem dm_creation_deduplicates (coll0 : List ConversationRecord)
    (t A B id1 id2 : String) (now1 now2 : Nat)
    (hA : A ≠ "") (hB : B ≠ "") (hAB : A ≠ B)
    (hnodm : findExistingDm coll0 t (normalizeMembers ([A, B] ++ [A])) = none) :
    ∃ coll1 rec1,
      createConversationRoute coll0 t A
        { type := ConversationType.dm, members := [A, B], metadata := none, name := none }
        id1 now1 =
        .ok (coll1, rec1, [{ tenantId := t, event := "conversation.created" }]) ∧
      createConversationRoute coll1 t B
        { type := ConversationType.dm, members := [B, A], metadata := none, name := none }
        id2 now2 =
        .ok (coll1, rec1, []) ∧
      coll1 = coll0 ++ [rec1] ∧
      rec1._id = id1 := by
  obtain ⟨hm1, hm2, hlen⟩ := normalizeMembers_pair A B hA hB hAB
  have hnodm2 : findExistingDm coll0 t (insertSorted B [A]) = none := by
    rw [← hm1]
    exact hnodm
  have hnone0 : ∀ r ∈ coll0, (fun record => record.tenantId == t &&
      record.type == ConversationType.dm &&
      dmMembersMatch (insertSorted B [A]) record) r = false := by
    intro r hr
    rw [findExistingDm] at hnodm2
    simpa using List.find?_eq_none.mp hnodm2 r hr
  have hstep1 : createConversation coll0 t A
      { type := ConversationType.dm, members := [A, B], metadata := none, name := none }
      id1 now1 = .ok (coll0 ++ [newConversationRecord t A
        { type := ConversationType.dm, members := [A, B], metadata := none, name := none }
        (insertSorted B [A]) id1 now1],
        newConversationRecord t A
        { type := ConversationType.dm, members := [A, B], metadata := none, name := none }
        (insertSorted B [A]) id1 now1, true) := by
    rw [createConversation]
    simp only [hm1]
    simp [hlen, hnodm2]
  have hfind2 : findExistingDm (coll0 ++ [newConversationRecord t A
      { type := ConversationType.dm, members := [A, B], metadata := none, name := none }
      (insertSorted B [A]) id1 now1]) t (insertSorted B [A]) =
      some (newConversationRecord t A
      { type := ConversationType.dm, members := [A, B], metadata := none, name := none }
      (insertSorted B [A]) id1 now1) := by
    rw [findExistingDm, find?_append_left_none hnone0]
    simp [List.find?_cons, newConversationRecord, dmMembersMatch, all_contains_self]
  have hstep2 : createConversation (coll0 ++ [newConversationRecord t A
      { type := ConversationType.dm, members := [A, B], metadata := none, name := none }
      (insertSorted B [A]) id1 now1]) t B
      { type := ConversationType.dm, members := [B, A], metadata := none, name := none }
      id2 now2 = .ok (coll0 ++ [newConversationRecord t A
        { type := ConversationType.dm, members := [A, B], metadata := none, name := none }
        (insertSorted B [A]) id1 now1],
        newConversationRecord t A
        { type := ConversationType.dm, members := [A, B], metadata := none, name := none }
        (insertSorted B [A]) id1 now1, false) := by
    rw [createConversation]
    simp only [hm2]
    simp [hlen, hfind2]
  refine ⟨coll0 ++ [newConversationRecord t A
      { type := ConversationType.dm, members := [A, B], metadata := none, name := none }
      (insertSorted B [A]) id1 now1],
    newConversationRecord t A
      { type := ConversationType.dm, members := [A, B], metadata := none, name := none }
      (insertSorted B [A]) id1 now1, ?_, ?_, rfl, rfl⟩
  · rw [createConversationRoute, hstep1]
    rfl
  · rw [createConversationRoute, hstep2]
    rfl

/-- Witness for claim C5: alice then bob create the same dm in tenant
`t1` starting from an empty conversation store. -/
theorem dm_creation_deduplicates_witness :
    ∃ coll1 rec1,
      createConversationRoute [] "t1" "alice"
        { type := ConversationType.dm, members := ["alice", "bob"], metadata := none,
          name := none } "conv-a" 1 =
        .ok (coll1, rec1, [{ tenantId := "t1", event := "conversation.created" }]) ∧
      createConversationRoute coll1 "t1" "bob"
        { type := ConversationType.dm, members := ["bob", "alice"], metadata := none,
          name := none } "conv-b" 2 =
        .ok (coll1, rec1, []) ∧
      coll1 = [] ++ [rec1] ∧
      rec1._id = "conv-a" :=
  dm_creation_deduplicates [] "t1" "alice" "bob" "conv-a" "conv-b" 1 2
    (by decide) (by decide) (by decide) rfl

/-! ## Realtime gateway: inbound `message` envelopes
(modules/auth/service.ts, `handleMessageEnvelope`) -/

/-- The output of `messageSchema.parse` for an inbound message envelope
(service.ts): note the optional client-supplied `senderId`, which the
handler never reads. -/
structure ParsedMessage where
  id : String
  conversationId : String
  senderDeviceId : String
  senderId : Option String
  sentAt : Nat
  deliveredAt : Option Nat
  readAt : Option Nat
  type : MessageType
  body : CipherEnvelope
  metadata : Option (List (String × String))
  sticker : Option StickerPayload
deriving DecidableEq, Repr

/-- `getConversationById(db, tenantId, id)` (conversations/store.ts). -/
def getConversationById (coll : List ConversationRecord) (tenantId id : String) :
    Option ConversationRecord :=
  coll.find? fun record => record.tenantId == tenantId && record._id == id

/-- Modelled from the spec: `touchConversation` is imported by the
realtime gateway from the conversations store and called as
`touchConversation(db, tenantId, conversationId, messageRecord.sentAt)`,
but its definition is missing from the source tree.  Per the spec, a
conversation's `updatedAt` is bumped whenever a message lands in it (used
for recency ordering): the conversation with the given tenant and id gets
its `updatedAt` set to the supplied timestamp. -/
def touchConversation (coll : List ConversationRecord)
    (tenantId conversationId : String) (time : Nat) : List ConversationRecord :=
  coll.map fun record =>
    if record.tenantId == tenantId && record._id == conversationId then
      { record with updatedAt := time }
    else record

/-- `toMessagePayload(record)` (messages/store.ts): the wire payload of a
stored record, broadcast to the members. -/
def toMessagePayload (record : MessageRecord) : MessagePayload :=
  { id := record._id
    conversationId := record.conversationId
    senderId := record.senderId
    senderDeviceId := record.senderDeviceId
    sentAt := record.sentAt
    deliveredAt := record.deliveredAt
    readAt := record.readAt
    type := record.type
    body := record.body
    metadata := record.metadata
    sticker := record.sticker }

/-- Server-side state the message path touches. -/
structure GatewayState where
  conversations : List ConversationRecord
  messages : List MessageDocument
deriving DecidableEq, Repr

/-- Observable effects of `handleMessageEnvelope`, in execution order. -/
inductive GatewayEffect where
  | savedMessage (record : MessageRecord)
  | touchedConversation (tenantId conversationId : String) (sentAt : Nat)
  | broadcasted (tenantId : String) (payload : MessagePayload)
      (allowedUsers : List String)
  | sentError (message reference : String)
deriving DecidableEq, Repr

/-- `handleMessageEnvelope(app, ctx, payload)` (service.ts): resolve the
conversation within the sender's tenant; require sender membership;
persist via `saveMessage` with `senderId := ctx.token.userId` (the
client-supplied `parsed.senderId` is never read); bump the conversation's
`updatedAt` with the stored record's `sentAt` via `touchConversation`;
then broadcast the server-stamped `toMessagePayload` to the
conversation's member set.  Every throw is caught and sent back to the
sender alone as an error frame. -/
def handleMessageEnvelope (st : GatewayState) (encryptionKey : Bytes)
    (token : VerifiedToken) (parsed : ParsedMessage) (now : Nat) (iv : Bytes) :
    GatewayState × List GatewayEffect :=
  match getConversationById st.conversations token.tenantId parsed.conversationId with
  | none => (st, [.sentError "Conversation not found" "message"])
  | some conversation =>
    if ¬conversation.members.contains token.userId then
      (st, [.sentError "User is not a member of this conversation" "message"])
    else
      match saveMessage st.messages encryptionKey
          { id := parsed.id
            tenantId := token.tenantId
            conversationId := parsed.conversationId
            senderId := token.userId
            senderDeviceId := parsed.senderDeviceId
            sentAt := parsed.sentAt
            deliveredAt := parsed.deliveredAt
            readAt := parsed.readAt
            type := parsed.type
            body := parsed.body
            metadata := parsed.metadata
            sticker := parsed.sticker } now iv with
      | .error e => (st, [.sentError e "message"])
      | .ok (messages2, messageRecord) =>
        let conversations2 := touchConversation st.conversations token.tenantId
          parsed.conversationId messageRecord.sentAt
        let response := toMessagePayload messageRecord
        ({ conversations := conversations2, messages := messages2 },
          [.savedMessage messageRecord,
           .touchedConversation token.tenantId parsed.conversationId messageRecord.sentAt,
           .broadcasted token.tenantId response conversation.members])

theorem touchConversation_updatedAt (coll : List ConversationRecord)
    (tenantId conversationId : String) (time : Nat) :
    ∀ c ∈ touchConversation coll tenantId conversationId time,
      c.tenantId = tenantId → c._id = conversationId → c.updatedAt = time := by
  intro c hc ht hid
  rw [touchConversation] at hc
  obtain ⟨r, _, hfr⟩ := List.mem_map.mp hc
  by_cases hp : (r.tenantId == tenantId && r._id == conversationId) = true
  · rw [if_pos hp] at hfr
    rw [← hfr]
  · rw [if_neg hp] at hfr
    subst hfr
    exact absurd (by simp [ht, hid]) hp

theorem handleMessageEnvelope_success (st : GatewayState) (key iv : Bytes)
    (token : VerifiedToken) (parsed : ParsedMessage) (now : Nat)
    (conv : ConversationRecord) (hkey : key.length = 32)
    (hconv : getConversationById st.conversations token.tenantId
      parsed.conversationId = some conv)
    (hmem : conv.members.contains token.userId = true) :
    ∃ messages2 rec,
      handleMessageEnvelope st key token parsed now iv =
        ({ conversations := touchConversation st.conversations token.tenantId
             parsed.conversationId rec.sentAt
           messages := messages2 },
         [GatewayEffect.savedMessage rec,
          GatewayEffect.touchedConversation token.tenantId parsed.conversationId
            rec.sentAt,
          GatewayEffect.broadcasted token.tenantId (toMessagePayload rec)
            conv.members]) ∧
      rec._id = parsed.id ∧
      rec.senderId = token.userId ∧
      rec.sentAt = parsed.sentAt := by
  obtain ⟨coll2, rec, hsave, hid, _, _, hsender, _, hsent, _, _, _, _⟩ :=
    saveMessage_ok st.messages key iv
      { id := parsed.id
        tenantId := token.tenantId
        conversationId := parsed.conversationId
        senderId := token.userId
        senderDeviceId := parsed.senderDeviceId
        sentAt := parsed.sentAt
        deliveredAt := parsed.deliveredAt
        readAt := parsed.readAt
        type := parsed.type
        body := parsed.body
        metadata := parsed.metadata
        sticker := parsed.sticker } now hkey
  refine ⟨coll2, rec, ?_, hid, hsender, hsent⟩
  have hmem2 : token.userId ∈ conv.members := List.elem_iff.mp hmem
  rw [handleMessageEnvelope, hconv]
  simp [hmem, hmem2, hsave]

/-- Claim C6 (with `touchConversation` modelled from the spec): when the
gateway accepts a valid inbound `message` envelope from a member of an
existing conversation, it persists the message, bumps that conversation's
`updatedAt` (the recency-ordering timestamp, set to the stored record's
`sentAt`), and broadcasts the server-stamped payload to the member set —
in exactly that order: the effect trace is
[savedMessage, touchedConversation, broadcasted], and in the post state
the conversation's `updatedAt` equals the stored record's `sentAt`. -/
theorem gateway_bumps_updatedAt_before_broadcast (st : GatewayState)
    (key iv : Bytes) (token : VerifiedToken) (parsed : ParsedMessage) (now : Nat)
    (conv : ConversationRecord) (hkey : key.length = 32)
    (hconv : getConversationById st.conversations token.tenantId
      parsed.conversationId = some conv)
    (hmem : conv.members.contains token.userId = true) :
    ∃ st2 rec,
      handleMessageEnvelope st key token parsed now iv = (st2,
        [GatewayEffect.savedMessage rec,
         GatewayEffect.touchedConversation token.tenantId parsed.conversationId
           rec.sentAt,
         GatewayEffect.broadcasted token.tenantId (toMessagePayload rec)
           conv.members]) ∧
      rec.sentAt = parsed.sentAt ∧
      st2.conversations = touchConversation st.conversations token.tenantId
        parsed.conversationId rec.sentAt ∧
      ∀ c ∈ st2.conversations, c.tenantId = token.tenantId →
        c._id = parsed.conversationId → c.updatedAt = rec.sentAt := by
  obtain ⟨messages2, rec, hrun, _, _, hsent⟩ :=
    handleMessageEnvelope_success st key iv token parsed now conv hkey hconv hmem
  refine ⟨_, rec, hrun, hsent, rfl, ?_⟩
  exact touchConversation_updatedAt st.conversations token.tenantId
    parsed.conversationId rec.sentAt

/-- Claim C9: the persisted and broadcast `senderId` always equals the
authenticated connection token's `userId`; the client-supplied `senderId`
inside the envelope has no influence on the handler's behaviour at all
(identical outcomes for any two values). -/
theorem sender_identity_comes_from_token :
    (∀ (st : GatewayState) (key iv : Bytes) (token : VerifiedToken)
        (parsed : ParsedMessage) (s1 s2 : Option String) (now : Nat),
      handleMessageEnvelope st key token { parsed with senderId := s1 } now iv =
        handleMessageEnvelope st key token { parsed with senderId := s2 } now iv) ∧
    (∀ (st : GatewayState) (key iv : Bytes) (token : VerifiedToken)
        (parsed : ParsedMessage) (now : Nat) (conv : ConversationRecord),
      key.length = 32 →
      getConversationById st.conversations token.tenantId parsed.conversationId =
        some conv →
      conv.members.contains token.userId = true →
      ∃ st2 rec,
        handleMessageEnvelope st key token parsed now iv = (st2,
          [GatewayEffect.savedMessage rec,
           GatewayEffect.touchedConversation token.tenantId parsed.conversationId
             rec.sentAt,
           GatewayEffect.broadcasted token.tenantId (toMessagePayload rec)
             conv.members]) ∧
        rec.senderId = token.userId ∧
        (toMessagePayload rec).senderId = token.userId) := by
  constructor
  · intro st key iv token parsed s1 s2 now
    cases parsed
    rfl
  · intro st key iv token parsed now conv hkey hconv hmem
    obtain ⟨messages2, rec, hrun, _, hsender, _⟩ :=
      handleMessageEnvelope_success st key iv token parsed now conv hkey hconv hmem
    exact ⟨_, rec, hrun, hsender, hsender⟩

/-- A dm conversation of tenant `T1` between alice and bob. -/
def demoConversation : ConversationRecord :=
  { _id := "conv-1"
    tenantId := "T1"
    type := ConversationType.dm
    members := ["alice", "bob"]
    metadata := []
    name := none
    createdAt := 0
    updatedAt := 0
    createdBy := "alice" }

/-- Gateway state holding that conversation and no stored messages. -/
def demoGatewayState : GatewayState :=
  { conversations := [demoConversation]
    messages := [] }

/-- An inbound message envelope whose client-supplied `senderId` claims to
be mallory; the connection token belongs to alice. -/
def demoParsedMessage : ParsedMessage :=
  { id := "m1"
    conversationId := "conv-1"
    senderDeviceId := "dev-1"
    senderId := some "mallory"
    sentAt := 4
    deliveredAt := none
    readAt := none
    type := MessageType.text
    body := { ciphertext := "x", scheme := CipherScheme.signal, keyId := "k", media := none }
    metadata := none
    sticker := none }

/-- Witness for claim C6: alice's message into `conv-1` produces the
[saved, touched, broadcast] effect trace and bumps the conversation's
`updatedAt` to the stored `sentAt`. -/
theorem gateway_bumps_updatedAt_before_broadcast_witness :
    ∃ st2 rec,
      handleMessageEnvelope demoGatewayState demoKey demoTokenT1 demoParsedMessage
        4 demoIv = (st2,
        [GatewayEffect.savedMessage rec,
         GatewayEffect.touchedConversation "T1" "conv-1" rec.sentAt,
         GatewayEffect.broadcasted "T1" (toMessagePayload rec) ["alice", "bob"]]) ∧
      rec.sentAt = 4 ∧
      st2.conversations =
        touchConversation demoGatewayState.conversations "T1" "conv-1" rec.sentAt ∧
      ∀ c ∈ st2.conversations, c.tenantId = "T1" → c._id = "conv-1" →
        c.updatedAt = rec.sentAt :=
  gateway_bumps_updatedAt_before_broadcast demoGatewayState demoKey demoIv
    demoTokenT1 demoParsedMessage 4 demoConversation (by simp [demoKey]) rfl
    (by decide)

/-- Witness for claim C9: the envelope claiming mallory as sender behaves
exactly like one claiming nothing, and the stored and broadcast sender is
alice — the token's user. -/
theorem sender_identity_comes_from_token_witness :
    (handleMessageEnvelope demoGatewayState demoKey demoTokenT1
        { demoParsedMessage with senderId := some "mallory" } 4 demoIv =
      handleMessageEnvelope demoGatewayState demoKey demoTokenT1
        { demoParsedMessage with senderId := none } 4 demoIv) ∧
    ∃ st2 rec,
      handleMessageEnvelope demoGatewayState demoKey demoTokenT1 demoParsedMessage
        4 demoIv = (st2,
        [GatewayEffect.savedMessage rec,
         GatewayEffect.touchedConversation "T1" "conv-1" rec.sentAt,
         GatewayEffect.broadcasted "T1" (toMessagePayload rec) ["alice", "bob"]]) ∧
      rec.senderId = "alice" ∧
      (toMessagePayload rec).senderId = "alice" := by
  obtain ⟨hni, hsucc⟩ := sender_identity_comes_from_token
  refine ⟨hni demoGatewayState demoKey demoIv demoTokenT1 demoParsedMessage
    (some "mallory") none 4, ?_⟩
  obtain ⟨st2, rec, hrun, hs1, hs2⟩ := hsucc demoGatewayState demoKey demoIv
    demoTokenT1 demoParsedMessage 4 demoConversation (by simp [demoKey]) rfl
    (by decide)
  exact ⟨st2, rec, hrun, hs1, hs2⟩

end VIChat
